import Mathlib

/-!
Verification of the document risk pipeline in `server.py` of the
ml-bnp-backend repository (class `DocumentProcessor`).

The embedding models the pure computational core of the pipeline:
entity records, the per-document risk scorer (`compute_risk`,
`get_risk_level`), entity extraction (`extract_entities`), the
per-document result construction (`extract_information` and its
error path), the quality assessor (`assess_document_quality`) and the
batch aggregator (`calculate_overall_risk`, `generate_recommendations`).

Modelling conventions:
  - Python strings are Lean `String`s; the Python substring operator
    `in` is `strHas` below (implemented on character lists).
  - A Python dict field that can be missing or `None` is an `Option`;
    Python truthiness of a string field (falsy for `None` and `""`)
    is `truthyStr`.
  - `datetime` values are modelled by proleptic-Gregorian day numbers
    (`toDays`); the ambient clock `datetime.now()` is passed in as a
    day-number parameter `now` (the time-of-day component is taken to
    be midnight, which is the only point where it is exact).
  - Floating point arithmetic is modelled by exact rationals; Python
    `round(x, n)` is modelled by round-half-to-even on rationals
    (`round1`, `round2`), which agrees with the float behaviour on all
    the values produced here.
  - Results of external libraries (the spaCy NER model, the dateutil
    parser applied to the regex matches, and the pycountry reference
    table) are inputs of the model, collected in `ExtractCtx`; the
    logic of `server.py` that consumes them is translated faithfully.
-/

/-! ## String utilities -/

/-- Whether `needle` is a prefix of `hay` (character lists). -/
def isStart : List Char → List Char → Bool
  | [], _ => true
  | _ :: _, [] => false
  | n :: ns, h :: hs => (n = h) && isStart ns hs

/-- Python substring test `needle in hay` on character lists. -/
def containsSub (hay needle : List Char) : Bool :=
  match hay with
  | [] => needle.isEmpty
  | _ :: t => isStart needle hay || containsSub t needle

/-- Python `needle in hay` for strings (case sensitive). -/
def strHas (hay needle : String) : Bool :=
  containsSub hay.toList needle.toList

/-- ASCII lower-casing of one character (Python `str.lower` on the
ASCII texts handled here). -/
def lowerChar (c : Char) : Char :=
  if 'A' ≤ c ∧ c ≤ 'Z' then Char.ofNat (c.toNat + 32) else c

/-- ASCII upper-casing of one character. -/
def upperChar (c : Char) : Char :=
  if 'a' ≤ c ∧ c ≤ 'z' then Char.ofNat (c.toNat - 32) else c

/-- `s.lower()` as a character list. -/
def lowerList (s : String) : List Char := s.toList.map lowerChar

/-- Helper for `titleCase`: the Boolean carries whether the previous
character was alphabetic. -/
def titleCaseGo : Bool → List Char → List Char
  | _, [] => []
  | prevAlpha, c :: cs =>
    let c' := if c.isAlpha then (if prevAlpha then lowerChar c else upperChar c) else c
    c' :: titleCaseGo c.isAlpha cs

/-- Python `str.title()` (ASCII model): the first letter of every
alphabetic run is upper-cased, the rest lower-cased. -/
def titleCase (s : String) : String := String.mk (titleCaseGo false s.toList)

/-! ## Dates (`datetime.strptime(_, "%Y-%m-%d")` and day arithmetic) -/

/-- A calendar date year-month-day. -/
structure YMD where
  y : ℕ
  m : ℕ
  d : ℕ
deriving DecidableEq

/-- Gregorian leap-year test. -/
def isLeap (y : ℕ) : Bool := y % 4 == 0 && (y % 100 != 0 || y % 400 == 0)

/-- Days in a month of a given year. -/
def daysInMonth (y m : ℕ) : ℕ :=
  if m = 2 then (if isLeap y then 29 else 28)
  else if m = 4 ∨ m = 6 ∨ m = 9 ∨ m = 11 then 30
  else 31

/-- Cumulative day count before month `m` in a non-leap year. -/
def cumDays (m : ℕ) : ℕ :=
  if m = 1 then 0 else if m = 2 then 31 else if m = 3 then 59
  else if m = 4 then 90 else if m = 5 then 120 else if m = 6 then 151
  else if m = 7 then 181 else if m = 8 then 212 else if m = 9 then 243
  else if m = 10 then 273 else if m = 11 then 304 else 334

/-- Proleptic Gregorian day number of a date (as in
`datetime.date.toordinal`); used to model `datetime` subtraction and
comparison at midnight. -/
def toDays (x : YMD) : ℕ :=
  365 * (x.y - 1) + (x.y - 1) / 4 + (x.y - 1) / 400 - (x.y - 1) / 100
    + cumDays x.m + (if isLeap x.y ∧ x.m > 2 then 1 else 0) + x.d

/-- Reads a non-empty all-digit character list as a natural number. -/
def digitsToNat : List Char → Option ℕ
  | [] => none
  | cs =>
    if cs.all (fun c => c.isDigit) then
      some (cs.foldl (fun acc c => acc * 10 + (c.toNat - 48)) 0)
    else none

/-- `datetime.strptime(s, "%Y-%m-%d")`: three dash-separated digit
fields of widths at most 4, 2, 2; the year is at least 1
(`datetime.MINYEAR`), the month is 1..12 and the day fits the month;
anything else raises, modelled as `none`. -/
def strptimeYMD (s : String) : Option YMD :=
  match s.splitOn "-" with
  | [ys, ms, ds] =>
    match digitsToNat ys.toList, digitsToNat ms.toList, digitsToNat ds.toList with
    | some y, some m, some d =>
      if ys.length ≤ 4 ∧ ms.length ≤ 2 ∧ ds.length ≤ 2 ∧ 1 ≤ y ∧ 1 ≤ m ∧ m ≤ 12
          ∧ 1 ≤ d ∧ d ≤ daysInMonth y m then
        some ⟨y, m, d⟩
      else none
    | _, _, _ => none
  | _ => none

/-- Zero-padded decimal rendering of width `w`. -/
def padNum (w n : ℕ) : String :=
  let s := toString n
  String.mk (List.replicate (w - s.length) '0') ++ s

/-- `datetime.strftime("%Y-%m-%d")`. -/
def formatYMD (x : YMD) : String :=
  padNum 4 x.y ++ "-" ++ padNum 2 x.m ++ "-" ++ padNum 2 x.d

/-! ## Entity records -/

/-- The mapping produced by `extract_entities` (`server.py` lines
785-791): the five identity fields, each possibly absent (`None`). -/
structure EntityRecord where
  NAME : Option String
  DOB : Option String
  COUNTRY : Option String
  COUNTRY_CODE : Option String
  CARD_EXPIRY_DATE : Option String
deriving DecidableEq

/-- Python truthiness of an optional string field: `None` and the
empty string are falsy; returns the value when truthy. -/
def truthyStr : Option String → Option String
  | none => none
  | some s => if s = "" then none else some s

/-! ## Entity extraction (`extract_entities`, lines 783-859) -/

/-- Inputs to `extract_entities` coming from outside the translated
logic: whether the spaCy model loaded (`nlp`), the first PERSON span
the NER finds (external model output), whether dateutil is available,
the dates successfully parsed from the regex matches in text order
(external parser output), and the pycountry reference table
(`none` when pycountry is unavailable). -/
structure ExtractCtx where
  nlpAvailable : Bool
  nerPerson : Option String
  dateutilAvailable : Bool
  parsedDates : List YMD
  pyTable : Option (List (String × String))
deriving DecidableEq

/-- The built-in fallback country table (lines 837-843). -/
def builtinCountries : List (String × String) :=
  [("united states", "US"), ("usa", "US"), ("america", "US"),
   ("united kingdom", "GB"), ("uk", "GB"), ("britain", "GB"),
   ("india", "IN"), ("canada", "CA"), ("australia", "AU"),
   ("germany", "DE"), ("france", "FR"), ("japan", "JP"),
   ("china", "CN"), ("brazil", "BR"), ("russia", "RU")]

/-- First table entry whose name occurs case-insensitively in the
text (`name.lower() in text.lower()`, first match wins). -/
def findCountryIn (table : List (String × String)) (text : String) :
    Option (String × String) :=
  table.find? (fun p => containsSub (lowerList text) (lowerList p.1))

/-- The pycountry path (lines 826-832): scan the reference table when
pycountry is available, otherwise find nothing. -/
def pyCountryLookup (ctx : ExtractCtx) (text : String) : Option (String × String) :=
  match ctx.pyTable with
  | some tbl => findCountryIn tbl text
  | none => none

/-- The date classification loop (lines 812-823): each parsed date
with year at most 2005 fills DOB (first wins), each with a later year
fills CARD_EXPIRY_DATE (first wins). -/
def classifyDates (dates : List YMD) : Option String × Option String :=
  dates.foldl
    (fun acc d =>
      if d.y ≤ 2005 ∧ acc.1 = none then (some (formatYMD d), acc.2)
      else if d.y > 2005 ∧ acc.2 = none then (acc.1, some (formatYMD d))
      else acc)
    (none, none)

/-- `extract_entities` (lines 783-859): if the spaCy model is not
loaded the initial all-`None` record is returned unchanged (lines
793-795); otherwise NAME is the stripped first PERSON span, the dates
are classified, the country is looked up first in the pycountry
table, then in the built-in table (title-cased name), and finally
both country fields are set to the literal "Unknown" (lines 852-854). -/
def extract_entities (ctx : ExtractCtx) (text : String) : EntityRecord :=
  if ctx.nlpAvailable = false then
    { NAME := none, DOB := none, COUNTRY := none, COUNTRY_CODE := none,
      CARD_EXPIRY_DATE := none }
  else
    let name := match ctx.nerPerson with
      | some s => some s.trim
      | none => none
    let dates := if ctx.dateutilAvailable then classifyDates ctx.parsedDates
      else (none, none)
    let country : Option String × Option String :=
      match pyCountryLookup ctx text with
      | some p => (some p.1, some p.2)
      | none =>
        match findCountryIn builtinCountries text with
        | some p => (some (titleCase p.1), some p.2)
        | none => (some "Unknown", some "Unknown")
    { NAME := name, DOB := dates.1, COUNTRY := country.1,
      COUNTRY_CODE := country.2, CARD_EXPIRY_DATE := dates.2 }

/-! ## Per-document risk scorer (`compute_risk`, lines 892-957, and
`get_risk_level`, lines 959-970) -/

/-- `get_risk_level`: numeric score to descriptive level. -/
def get_risk_level (score : ℕ) : String :=
  if score = 0 then "MINIMAL"
  else if score ≤ 25 then "LOW"
  else if score ≤ 50 then "MEDIUM"
  else if score ≤ 75 then "HIGH"
  else "CRITICAL"

/-- The value returned by `compute_risk` together with the
enrichment it writes into the entity record (Risk_Details and
Risk_Level). -/
structure RiskScored where
  score : ℕ
  details : List String
  level : String
deriving DecidableEq

/-- `compute_risk` (lines 892-957). `now` is the day number of
`datetime.now()`. Each block contributes points exactly as in the
source; the total is capped at 100. -/
def compute_risk (now : ℕ) (e : EntityRecord) : RiskScored :=
  let nameP : ℕ × List String :=
    match truthyStr e.NAME with
    | none => (25, ["Missing name information"])
    | some s => if s.length < 3 then (10, ["Name appears incomplete"]) else (0, [])
  let dobP : ℕ × List String :=
    match truthyStr e.DOB with
    | none => (25, ["Missing date of birth"])
    | some s =>
      match strptimeYMD s with
      | none => (15, ["Invalid date of birth format"])
      | some dob =>
        let age : ℚ := (((now : ℤ) - (toDays dob : ℤ) : ℤ) : ℚ) / 365.25
        if age < 18 then (15, ["Age below 18 years"])
        else if age > 100 then (20, ["Unrealistic age detected"])
        else (0, [])
  let ccP : ℕ × List String :=
    match truthyStr e.COUNTRY_CODE with
    | none => (25, ["Missing or unknown country information"])
    | some s =>
      if s = "Unknown" then (25, ["Missing or unknown country information"])
      else (0, [])
  let cardP : ℕ × List String :=
    match truthyStr e.CARD_EXPIRY_DATE with
    | none => (25, ["Missing card expiry date"])
    | some s =>
      match strptimeYMD s with
      | none => (15, ["Invalid expiry date format"])
      | some expiry =>
        if toDays expiry < now then (30, ["Card/document has expired"])
        else if (toDays expiry : ℤ) - (now : ℤ) < 30 then
          (10, ["Card/document expires soon"])
        else (0, [])
  let risk_score := min 100 (nameP.1 + dobP.1 + ccP.1 + cardP.1)
  let risk_details := nameP.2 ++ dobP.2 ++ ccP.2 ++ cardP.2
  { score := risk_score,
    details := if risk_details.isEmpty then ["No significant risk factors"] else risk_details,
    level := get_risk_level risk_score }

/-! ## Per-document result (`extract_information`, lines 861-890) -/

/-- One element of the `document_results` list consumed by the batch
aggregator: the dict built by `extract_information` (success path,
lines 871-880, with `error := none`) or its error record (lines
886-890, where only filename, error and Risk_Score are present).
`Option` marks fields whose key may be missing or hold `None`. -/
structure DocRecord where
  filename : Option String
  error : Option String
  NAME : Option String
  DOB : Option String
  COUNTRY : Option String
  COUNTRY_CODE : Option String
  CARD_EXPIRY_DATE : Option String
  Risk_Score : Option ℕ
  extracted_text : Option String
deriving DecidableEq

/-- `text[:500] + "..." if len(text) > 500 else text` (line 879). -/
def truncateText (text : String) : String :=
  if text.length > 500 then String.mk (text.toList.take 500) ++ "..." else text

/-- Success path of `extract_information` (lines 861-882). -/
def extract_information (now : ℕ) (ctx : ExtractCtx) (text filename : String) :
    DocRecord :=
  let entities := extract_entities ctx text
  let risk := compute_risk now entities
  { filename := some filename, error := none,
    NAME := entities.NAME, DOB := entities.DOB, COUNTRY := entities.COUNTRY,
    COUNTRY_CODE := entities.COUNTRY_CODE,
    CARD_EXPIRY_DATE := entities.CARD_EXPIRY_DATE,
    Risk_Score := some risk.score,
    extracted_text := some (truncateText text) }

/-- Error path of `extract_information` (lines 884-890): an
unexpected fault during extraction or entity analysis is caught and
turned into this record; note it carries `Risk_Score = 100` ("High
risk for processing errors"). -/
def extract_information_error (filename errMsg : String) : DocRecord :=
  { filename := some filename, error := some errMsg,
    NAME := none, DOB := none, COUNTRY := none, COUNTRY_CODE := none,
    CARD_EXPIRY_DATE := none, Risk_Score := some 100, extracted_text := none }

/-- The keys of the dict literal returned by the success path of
`extract_information` (lines 871-880), in source order. -/
def extract_information_keys : List String :=
  ["filename", "NAME", "DOB", "COUNTRY", "COUNTRY_CODE",
   "CARD_EXPIRY_DATE", "Risk_Score", "extracted_text"]

/-! ## Quality assessor (`assess_document_quality`, lines 673-735) -/

/-- Count of the five identity fields populated with truthy,
non-"Unknown" values (lines 687-689). -/
def filledCount (e : EntityRecord) : ℕ :=
  List.countP
    (fun v =>
      match truthyStr v with
      | some s => s ≠ "Unknown"
      | none => false)
    [e.NAME, e.DOB, e.COUNTRY, e.COUNTRY_CODE, e.CARD_EXPIRY_DATE]

/-- The completeness deduction chain (lines 692-700): points and
issue text keyed on the completeness ratio (0.4, 0.6 and 0.8 are the
Python float literals, exact on the multiples of one fifth compared
against them). -/
def ratioDeduction (r : ℚ) : ℤ × List String :=
  if r < 2 / 5 then (40, ["Most critical fields missing"])
  else if r < 3 / 5 then (25, ["Several important fields missing"])
  else if r < 4 / 5 then (10, ["Some fields missing"])
  else (0, [])

/-- The dict returned by `assess_document_quality` (lines 728-735). -/
structure QualityReport where
  quality_score : ℤ
  quality_level : String
  completeness_ratio : ℚ
  fields_extracted : ℕ
  total_fields : ℕ
  quality_issues : List String
deriving DecidableEq

/-- Round-half-to-even on rationals (the semantics of Python `round`
restricted to exactly representable values): `rhe q` is the nearest
integer, ties going to the even one. -/
def rhe (q : ℚ) : ℤ :=
  if q - ⌊q⌋ < 1 / 2 then ⌊q⌋
  else if 1 / 2 < q - ⌊q⌋ then ⌊q⌋ + 1
  else if ⌊q⌋ % 2 = 0 then ⌊q⌋ else ⌊q⌋ + 1

/-- Python `round(q, 1)`. -/
def round1 (q : ℚ) : ℚ := (rhe (q * 10) : ℚ) / 10

/-- Python `round(q, 2)`. -/
def round2 (q : ℚ) : ℚ := (rhe (q * 100) : ℚ) / 100

/-- `assess_document_quality` (lines 673-735): starts from 100,
deducts for short text, low field completeness and failure markers,
floors at 0, bands the quality level and reports the completeness
ratio as a percentage rounded to one decimal (line 731). -/
def assess_document_quality (text : String) (e : EntityRecord) : QualityReport :=
  let textD : ℤ × List String :=
    if text.length < 50 then (30, ["Very short text extracted - possible OCR issues"])
    else if text.length < 100 then (15, ["Limited text extracted"])
    else (0, [])
  let filled_fields := filledCount e
  let completeness_ratio : ℚ := (filled_fields : ℚ) / 5
  let ratioD := ratioDeduction completeness_ratio
  let m1 : ℤ × List String :=
    if strHas text "[OCR_FAILED_FOR_PAGE]" then
      (35, ["OCR processing failed for some pages"])
    else (0, [])
  let m2 : ℤ × List String :=
    if strHas text "Error processing" then
      (25, ["Document processing errors detected"])
    else (0, [])
  let m3 : ℤ × List String :=
    if strHas text "Filename-based extraction" then
      (20, ["Data extracted from filename only"])
    else (0, [])
  let quality_score : ℤ := max 0 (100 - textD.1 - ratioD.1 - m1.1 - m2.1 - m3.1)
  let quality_level :=
    if quality_score ≥ 90 then "EXCELLENT"
    else if quality_score ≥ 75 then "GOOD"
    else if quality_score ≥ 60 then "FAIR"
    else if quality_score ≥ 40 then "POOR"
    else "VERY_POOR"
  let quality_issues := textD.2 ++ ratioD.2 ++ m1.2 ++ m2.2 ++ m3.2
  { quality_score := quality_score,
    quality_level := quality_level,
    completeness_ratio := round1 (completeness_ratio * 100),
    fields_extracted := filled_fields,
    total_fields := 5,
    quality_issues :=
      if quality_issues.isEmpty then ["No quality issues detected"] else quality_issues }

/-! ## Batch aggregator (`calculate_overall_risk`, lines 450-636, and
`generate_recommendations`, lines 638-671) -/

/-- The `document_analysis` sub-dict of the main verdict (lines
619-628). -/
structure DocAnalysis where
  total_documents : ℕ
  complete_documents : ℕ
  incomplete_documents : ℕ
  unique_names : ℕ
  unique_countries : ℕ
  unique_dobs : ℕ
  names_found : List String
  countries_found : List String
deriving DecidableEq

/-- The `assessment_details` sub-dict of the main verdict (lines
631-635). -/
structure AssessmentDetails where
  base_average_risk : ℚ
  risk_adjustments : ℚ
  calculation_method : String
deriving DecidableEq

/-- The dict returned by `calculate_overall_risk`. The two fixed
verdicts (empty input, lines 456-464, and no scores, lines 490-498)
omit the last three keys, modelled by `none`. -/
structure BatchVerdict where
  overall_risk_score : ℚ
  overall_status : String
  risk_category : String
  confidence_level : String
  risk_factors : List String
  recommendations : List String
  individual_document_scores : Option (List ℕ)
  document_analysis : Option DocAnalysis
  assessment_details : Option AssessmentDetails
deriving DecidableEq

/-- The per-document scores gathered by the collection loop (lines
476-478): every dict that has a Risk_Score key contributes it, in
order. -/
def indivScores (docs : List DocRecord) : List ℕ :=
  docs.filterMap (fun d => d.Risk_Score)

/-- The entity-data collection of the same loop (lines 481-488): a
field value is collected when the dict has a Risk_Score key and the
value is truthy. -/
def collectField (f : DocRecord → Option String) (docs : List DocRecord) :
    List String :=
  docs.filterMap (fun d => if d.Risk_Score.isSome then truthyStr (f d) else none)

/-- `generate_recommendations` (lines 638-671). -/
def generate_recommendations (risk_score : ℚ) (risk_factors : List String)
    (doc_count unique_names unique_countries : ℕ) : List String :=
  let base :=
    if risk_score ≤ 20 then
      ["✅ Customer verification complete - proceed with onboarding",
       "✅ All documents appear authentic and consistent"]
    else if risk_score ≤ 40 then
      ["⚠️ Minor inconsistencies detected - consider additional verification",
       "📋 Review flagged items before final approval"]
    else if risk_score ≤ 60 then
      ["🔍 Manual review required before proceeding",
       "📞 Consider contacting customer for clarification"]
    else if risk_score ≤ 80 then
      ["🚨 High risk detected - thorough investigation required",
       "🔒 Do not proceed without senior approval"]
    else
      ["❌ Reject application - too many risk factors",
       "📋 Request fresh document submission"]
  let r1 :=
    if risk_factors.any (fun s => strHas s "Multiple different names") then
      ["🔍 Verify name variations with additional ID documents"]
    else []
  let r2 :=
    if risk_factors.any (fun s => strHas s "Multiple different countries") then
      ["🌍 Confirm customer nationality and residence status"]
    else []
  let r3 :=
    if risk_factors.any (fun s => strHas s "Insufficient number of documents") then
      ["📄 Request additional supporting documents"]
    else []
  let r4 :=
    if doc_count ≥ 5 ∧ risk_score ≤ 30 then
      ["⭐ Comprehensive documentation provided - fast-track eligible"]
    else []
  let _ := unique_names
  let _ := unique_countries
  base ++ r1 ++ r2 ++ r3 ++ r4

/-- The risk banding of the final score (lines 586-605), as
(risk_category, overall_status, confidence_level). -/
def riskBand (final_risk_score : ℚ) : String × String × String :=
  if final_risk_score ≤ 20 then ("LOW_RISK", "VERIFIED", "HIGH")
  else if final_risk_score ≤ 40 then ("MEDIUM_LOW_RISK", "VERIFIED", "MEDIUM")
  else if final_risk_score ≤ 60 then ("MEDIUM_RISK", "REVIEW_REQUIRED", "MEDIUM")
  else if final_risk_score ≤ 80 then ("MEDIUM_HIGH_RISK", "FLAGGED", "MEDIUM")
  else ("HIGH_RISK", "REJECTED", "HIGH")

/-- `calculate_overall_risk` (lines 450-636). `now` is the day number
of `datetime.now()` used by the expired-card count. The consistency
adjustments are computed and clamped to the range -20..20 (lines
505-572) but the final score is the unmodified base average (lines
574-583); the adjustments are only reported in `assessment_details`. -/
def calculate_overall_risk (now : ℕ) (document_results : List DocRecord) :
    BatchVerdict :=
  if document_results.isEmpty then
    { overall_risk_score := 100, overall_status := "REJECTED",
      risk_category := "NO_DOCUMENTS", confidence_level := "HIGH",
      risk_factors := ["No documents processed"],
      recommendations := ["Upload valid identity documents for verification"],
      individual_document_scores := none, document_analysis := none,
      assessment_details := none }
  else
    let individual_scores := indivScores document_results
    let document_count := document_results.length
    let names_found := collectField (fun d => d.NAME) document_results
    let countries_found := collectField (fun d => d.COUNTRY) document_results
    let dobs_found := collectField (fun d => d.DOB) document_results
    let card_expiries_found :=
      collectField (fun d => d.CARD_EXPIRY_DATE) document_results
    if individual_scores.isEmpty then
      { overall_risk_score := 100, overall_status := "HIGH_RISK",
        risk_category := "PROCESSING_ERROR", confidence_level := "LOW",
        risk_factors := ["Failed to process documents"],
        recommendations := ["Resubmit documents in supported formats"],
        individual_document_scores := none, document_analysis := none,
        assessment_details := none }
    else
      let avg_individual_risk : ℚ :=
        (individual_scores.sum : ℚ) / (individual_scores.length : ℚ)
      let unique_names := names_found.dedup
      let unique_countries := countries_found.dedup
      let unique_dobs := dobs_found.dedup
      let f1 : ℚ × List String :=
        if unique_names.length > 1 then
          (2, ["Multiple different names found across documents"])
        else (0, [])
      let f2 : ℚ × List String :=
        if unique_countries.length > 1 then
          (1, ["Multiple different countries found across documents"])
        else (0, [])
      let f3 : ℚ × List String :=
        if unique_dobs.length > 1 then
          (3, ["Multiple different dates of birth found"])
        else (0, [])
      let complete_documents := individual_scores.countP (fun s => s == 0)
      let incomplete_documents := document_count - complete_documents
      let f4 : ℚ × List String :=
        if incomplete_documents > 0 then
          (min 5 (((incomplete_documents : ℚ) / (document_count : ℚ)) * 8),
           [s!"{incomplete_documents} documents missing critical information"])
        else (0, [])
      let f5 : ℚ × List String :=
        if document_count < 2 then
          (2, ["Insufficient number of documents for verification"])
        else if document_count ≥ 5 then
          (-2, ["Comprehensive document portfolio provided"])
        else (0, [])
      let f6 : ℚ × List String :=
        if names_found.isEmpty then
          (5, ["No names extracted from any document"])
        else if names_found.length ≥ 3 ∧ unique_names.length = 1 then
          (-2, ["Consistent name across multiple documents"])
        else (0, [])
      let expired_cards :=
        card_expiries_found.countP
          (fun s =>
            match strptimeYMD s with
            | some d => decide (toDays d < now)
            | none => false)
      let f7 : ℚ × List String :=
        if expired_cards > 0 then
          ((expired_cards : ℚ) * 2, [s!"{expired_cards} expired cards/documents found"])
        else (0, [])
      let risk_adjustments : ℚ :=
        f1.1 + f2.1 + f3.1 + f4.1 + f5.1 + f6.1 + f7.1
      let risk_adjustments : ℚ := max (-20) (min 20 risk_adjustments)
      let risk_factors :=
        f1.2 ++ f2.2 ++ f3.2 ++ f4.2 ++ f5.2 ++ f6.2 ++ f7.2
      let final_risk_score := avg_individual_risk
      let final_risk_score := round1 final_risk_score
      let band := riskBand final_risk_score
      let recommendations :=
        generate_recommendations final_risk_score risk_factors document_count
          unique_names.length unique_countries.length
      { overall_risk_score := round2 final_risk_score,
        overall_status := band.2.1,
        risk_category := band.1,
        confidence_level := band.2.2,
        risk_factors :=
          if risk_factors.isEmpty then ["No significant risk factors identified"]
          else risk_factors,
        recommendations := recommendations,
        individual_document_scores := some individual_scores,
        document_analysis := some
          { total_documents := document_count,
            complete_documents := complete_documents,
            incomplete_documents := incomplete_documents,
            unique_names := unique_names.length,
            unique_countries := unique_countries.length,
            unique_dobs := unique_dobs.length,
            names_found := unique_names,
            countries_found := unique_countries },
        assessment_details := some
          { base_average_risk := round2 avg_individual_risk,
            risk_adjustments := round2 risk_adjustments,
            calculation_method :=
              "Weighted average with consistency and completeness analysis" } }

/-- A minimal document dict carrying only a Risk_Score, as built by
the `/test-risk-calculation` mock generator for feeding plain score
lists into the aggregator. -/
def mkScoreDoc (s : ℕ) : DocRecord :=
  { filename := none, error := none, NAME := none, DOB := none,
    COUNTRY := none, COUNTRY_CODE := none, CARD_EXPIRY_DATE := none,
    Risk_Score := some s, extracted_text := none }

/-- The sample score list of the repository's round-trip test
(`test_risk_calculation.py` line 13 and the default of the
`/test-risk-calculation` endpoint). -/
def testScores : List ℕ := [55, 0, 55, 100, 0, 30, 0, 30, 30, 30, 55]

/-- A document dict with no Risk_Score key, as produced by the
`process_file` error path (lines 1002-1007), which returns only
an error message and the filename. -/
def noScoreDoc : DocRecord :=
  { filename := some "x.bin", error := some "fault", NAME := none, DOB := none,
    COUNTRY := none, COUNTRY_CODE := none, CARD_EXPIRY_DATE := none,
    Risk_Score := none, extracted_text := none }

/-! ## Helper lemmas -/

theorem rhe_intCast (n : ℤ) : rhe (n : ℚ) = n := by
  simp [rhe]

theorem rhe_natCast (n : ℕ) : rhe (n : ℚ) = n := by
  have h : ((n : ℤ) : ℚ) = (n : ℚ) := by push_cast; rfl
  rw [← h, rhe_intCast]

theorem round1_natCast (n : ℕ) : round1 (n : ℚ) = n := by
  unfold round1
  have h : (n : ℚ) * 10 = ((10 * n : ℕ) : ℚ) := by push_cast; ring
  rw [h, rhe_natCast]
  push_cast
  ring

theorem round2_natCast (n : ℕ) : round2 (n : ℚ) = n := by
  unfold round2
  have h : (n : ℚ) * 100 = ((100 * n : ℕ) : ℚ) := by push_cast; ring
  rw [h, rhe_natCast]
  push_cast
  ring

theorem calc_risk_score_eq (now : ℕ) (docs : List DocRecord) :
    (calculate_overall_risk now docs).overall_risk_score =
      if docs.isEmpty then 100
      else if (indivScores docs).isEmpty then 100
      else
        round2 (round1
          (((indivScores docs).sum : ℚ) / ((indivScores docs).length : ℚ))) := by
  unfold calculate_overall_risk
  by_cases h1 : docs.isEmpty = true
  · simp only [if_pos h1]
  · simp only [if_neg h1]
    by_cases h2 : (indivScores docs).isEmpty = true
    · simp only [if_pos h2]
    · simp only [if_neg h2]

theorem calc_status_eq (now : ℕ) (docs : List DocRecord) :
    (calculate_overall_risk now docs).overall_status =
      if docs.isEmpty then "REJECTED"
      else if (indivScores docs).isEmpty then "HIGH_RISK"
      else
        (riskBand (round1
          (((indivScores docs).sum : ℚ) / ((indivScores docs).length : ℚ)))).2.1 := by
  unfold calculate_overall_risk
  by_cases h1 : docs.isEmpty = true
  · simp only [if_pos h1]
  · simp only [if_neg h1]
    by_cases h2 : (indivScores docs).isEmpty = true
    · simp only [if_pos h2]
    · simp only [if_neg h2]

theorem calc_category_eq (now : ℕ) (docs : List DocRecord) :
    (calculate_overall_risk now docs).risk_category =
      if docs.isEmpty then "NO_DOCUMENTS"
      else if (indivScores docs).isEmpty then "PROCESSING_ERROR"
      else
        (riskBand (round1
          (((indivScores docs).sum : ℚ) / ((indivScores docs).length : ℚ)))).1 := by
  unfold calculate_overall_risk
  by_cases h1 : docs.isEmpty = true
  · simp only [if_pos h1]
  · simp only [if_neg h1]
    by_cases h2 : (indivScores docs).isEmpty = true
    · simp only [if_pos h2]
    · simp only [if_neg h2]

theorem calc_confidence_eq (now : ℕ) (docs : List DocRecord) :
    (calculate_overall_risk now docs).confidence_level =
      if docs.isEmpty then "HIGH"
      else if (indivScores docs).isEmpty then "LOW"
      else
        (riskBand (round1
          (((indivScores docs).sum : ℚ) / ((indivScores docs).length : ℚ)))).2.2 := by
  unfold calculate_overall_risk
  by_cases h1 : docs.isEmpty = true
  · simp only [if_pos h1]
  · simp only [if_neg h1]
    by_cases h2 : (indivScores docs).isEmpty = true
    · simp only [if_pos h2]
    · simp only [if_neg h2]

theorem indivScores_nil_of_none {docs : List DocRecord}
    (h : ∀ d ∈ docs, d.Risk_Score = none) : indivScores docs = [] := by
  induction docs with
  | nil => rfl
  | cons d t ih =>
    have hd := h d (List.mem_cons_self d t)
    have ht := ih (fun x hx => h x (List.mem_cons_of_mem _ hx))
    simp [indivScores, List.filterMap_cons, hd] at *
    exact ht

theorem indivScores_ne_nil {docs : List DocRecord} (h1 : docs ≠ [])
    (h2 : ∀ d ∈ docs, (d.Risk_Score).isSome) :
    (indivScores docs).isEmpty = false := by
  match docs, h1 with
  | d :: t, _ =>
    have hd := h2 d (List.mem_cons_self d t)
    obtain ⟨s, hs⟩ := Option.isSome_iff_exists.mp hd
    simp [indivScores, List.filterMap_cons, hs]

theorem indivScores_map_mkScoreDoc (l : List ℕ) :
    indivScores (l.map mkScoreDoc) = l := by
  induction l with
  | nil => rfl
  | cons s t ih => simp [indivScores, mkScoreDoc, List.filterMap_cons] at *; exact ih

theorem isEmpty_eq_of_length_eq {α β : Type} {a : List α} {b : List β}
    (h : a.length = b.length) : a.isEmpty = b.isEmpty := by
  cases a <;> cases b <;> simp_all

/-! ## Claims -/

/-- Claim C2: for every EntityRecord in which NAME, DOB, COUNTRY_CODE
and CARD_EXPIRY_DATE are all absent — the COUNTRY field and the clock
arbitrary — `compute_risk` returns a Risk_Score of 100 (25+25+25+25,
capped at 100) and attaches Risk_Level CRITICAL. -/
theorem claim_C2_all_absent_critical (now : ℕ) (country : Option String) :
    (compute_risk now ⟨none, none, country, none, none⟩).score = 100 ∧
    (compute_risk now ⟨none, none, country, none, none⟩).level = "CRITICAL" :=
  ⟨rfl, rfl⟩

/-- Claim C3: for every EntityRecord input, regardless of which
fields are present, valid, or malformed, the Risk_Score returned by
`compute_risk` lies in the closed interval 0..100. -/
theorem claim_C3_score_bounds (now : ℕ) (e : EntityRecord) :
    0 ≤ (compute_risk now e).score ∧ (compute_risk now e).score ≤ 100 :=
  ⟨Nat.zero_le _, Nat.min_le_left _ _⟩

/-- Claim C4, counterexample: on the empty list the source
short-circuits with the risk_category "NO_DOCUMENTS" (lines 456-464),
not the high-risk category "HIGH_RISK" that the claim attributes to
the verdict. -/
theorem claim_C4_counterexample :
    (calculate_overall_risk 0 []).risk_category = "NO_DOCUMENTS" ∧
    (calculate_overall_risk 0 []).risk_category ≠ "HIGH_RISK" :=
  ⟨rfl, by decide⟩

/-- Claim C4 as amended: `calculate_overall_risk` applied to the
empty list deterministically returns the fixed no-documents verdict:
overall_risk_score 100, overall_status REJECTED, risk_category
NO_DOCUMENTS and confidence_level HIGH. -/
theorem claim_C4_empty_verdict (now : ℕ) :
    (calculate_overall_risk now []).overall_risk_score = 100 ∧
    (calculate_overall_risk now []).overall_status = "REJECTED" ∧
    (calculate_overall_risk now []).risk_category = "NO_DOCUMENTS" ∧
    (calculate_overall_risk now []).confidence_level = "HIGH" :=
  ⟨rfl, rfl, rfl, rfl⟩

/-- Claim C1: under the pure-average aggregation policy, for every
non-empty list of DocumentResults that each carry a Risk_Score,
`calculate_overall_risk` returns an overall_risk_score equal to the
arithmetic mean of the per-document Risk_Score values (rounded to the
documented precision: `round(_, 1)` then `round(_, 2)`), the
consistency adjustments being computed but not applied; in
particular a single-element list with score S yields overall score S,
and the list [55, 0, 55, 100, 0, 30, 0, 30, 30, 30, 55] yields 35. -/
theorem claim_C1_pure_average :
    (∀ (now : ℕ) (docs : List DocRecord), docs ≠ [] →
      (∀ d ∈ docs, (d.Risk_Score).isSome) →
      (calculate_overall_risk now docs).overall_risk_score =
        round2 (round1
          (((indivScores docs).sum : ℚ) / ((indivScores docs).length : ℚ)))) ∧
    (∀ (now : ℕ) (d : DocRecord) (S : ℕ), d.Risk_Score = some S →
      (calculate_overall_risk now [d]).overall_risk_score = (S : ℚ)) ∧
    (∀ now : ℕ,
      (calculate_overall_risk now (testScores.map mkScoreDoc)).overall_risk_score
        = 35) := by
  refine ⟨?_, ?_, ?_⟩
  · intro now docs h1 h2
    rw [calc_risk_score_eq]
    have e1 : docs.isEmpty = false := by
      cases docs
      · exact absurd rfl h1
      · rfl
    have e2 := indivScores_ne_nil h1 h2
    simp [e1, e2]
  · intro now d S h
    rw [calc_risk_score_eq]
    have h2 : indivScores [d] = [S] := by
      simp [indivScores, List.filterMap_cons, h]
    rw [h2]
    simp
    rw [round1_natCast, round2_natCast]
  · intro now
    rw [calc_risk_score_eq]
    rw [indivScores_map_mkScoreDoc]
    have hs : (testScores.sum : ℚ) = 385 := by norm_num [testScores]
    have hl : ((testScores.length : ℕ) : ℚ) = 11 := by norm_num [testScores]
    simp only [hs, hl]
    have h35 : (385 : ℚ) / 11 = ((35 : ℕ) : ℚ) := by push_cast; norm_num
    rw [h35, round1_natCast, round2_natCast]
    simp [testScores]

/-- Claim C1 witness: the theorem applied to the concrete singleton
batch carrying score 7. -/
theorem claim_C1_witness :
    (calculate_overall_risk 0 [mkScoreDoc 7]).overall_risk_score = (7 : ℚ) :=
  claim_C1_pure_average.2.1 0 (mkScoreDoc 7) 7 rfl

/-- Claim C9: the batch aggregator is order-independent; for every
list of DocumentResults and every permutation of it,
`calculate_overall_risk` produces the same overall_risk_score,
overall_status, risk_category and confidence_level. -/
theorem claim_C9_order_independent (now : ℕ) (l l' : List DocRecord)
    (h : l.Perm l') :
    (calculate_overall_risk now l).overall_risk_score =
      (calculate_overall_risk now l').overall_risk_score ∧
    (calculate_overall_risk now l).overall_status =
      (calculate_overall_risk now l').overall_status ∧
    (calculate_overall_risk now l).risk_category =
      (calculate_overall_risk now l').risk_category ∧
    (calculate_overall_risk now l).confidence_level =
      (calculate_overall_risk now l').confidence_level := by
  have hsc : (indivScores l).Perm (indivScores l') := by
    unfold indivScores
    exact h.filterMap _
  have hsum : (indivScores l).sum = (indivScores l').sum := hsc.sum_eq
  have hlen : (indivScores l).length = (indivScores l').length := hsc.length_eq
  have he1 : l.isEmpty = l'.isEmpty := isEmpty_eq_of_length_eq h.length_eq
  have he2 : (indivScores l).isEmpty = (indivScores l').isEmpty :=
    isEmpty_eq_of_length_eq hlen
  refine ⟨?_, ?_, ?_, ?_⟩
  · rw [calc_risk_score_eq, calc_risk_score_eq, he1, he2, hsum, hlen]
  · rw [calc_status_eq, calc_status_eq, he1, he2, hsum, hlen]
  · rw [calc_category_eq, calc_category_eq, he1, he2, hsum, hlen]
  · rw [calc_confidence_eq, calc_confidence_eq, he1, he2, hsum, hlen]

/-- Claim C9 witness: the theorem applied to a concrete two-element
batch and its transposition. -/
theorem claim_C9_witness :
    (calculate_overall_risk 0 [mkScoreDoc 10, mkScoreDoc 60]).overall_risk_score =
      (calculate_overall_risk 0 [mkScoreDoc 60, mkScoreDoc 10]).overall_risk_score ∧
    (calculate_overall_risk 0 [mkScoreDoc 10, mkScoreDoc 60]).overall_status =
      (calculate_overall_risk 0 [mkScoreDoc 60, mkScoreDoc 10]).overall_status ∧
    (calculate_overall_risk 0 [mkScoreDoc 10, mkScoreDoc 60]).risk_category =
      (calculate_overall_risk 0 [mkScoreDoc 60, mkScoreDoc 10]).risk_category ∧
    (calculate_overall_risk 0 [mkScoreDoc 10, mkScoreDoc 60]).confidence_level =
      (calculate_overall_risk 0 [mkScoreDoc 60, mkScoreDoc 10]).confidence_level :=
  claim_C9_order_independent 0 _ _ (List.Perm.swap (mkScoreDoc 60) (mkScoreDoc 10) [])

/-- Claim C10: for every non-empty list of document results in which
no element carries a Risk_Score, `calculate_overall_risk` returns the
fixed processing-error verdict (score 100, HIGH_RISK,
PROCESSING_ERROR, confidence LOW), which differs from the empty-list
verdict (REJECTED / NO_DOCUMENTS). -/
theorem claim_C10_processing_error_verdict (now : ℕ) (docs : List DocRecord)
    (h1 : docs ≠ []) (h2 : ∀ d ∈ docs, d.Risk_Score = none) :
    (calculate_overall_risk now docs).overall_risk_score = 100 ∧
    (calculate_overall_risk now docs).overall_status = "HIGH_RISK" ∧
    (calculate_overall_risk now docs).risk_category = "PROCESSING_ERROR" ∧
    (calculate_overall_risk now docs).confidence_level = "LOW" ∧
    (calculate_overall_risk now []).overall_status = "REJECTED" ∧
    (calculate_overall_risk now []).risk_category = "NO_DOCUMENTS" := by
  have e1 : docs.isEmpty = false := by
    cases docs
    · exact absurd rfl h1
    · rfl
  have e2 : (indivScores docs).isEmpty = true := by
    rw [indivScores_nil_of_none h2]
    rfl
  refine ⟨?_, ?_, ?_, ?_, rfl, rfl⟩
  · rw [calc_risk_score_eq]
    simp [e1, e2]
  · rw [calc_status_eq]
    simp [e1, e2]
  · rw [calc_category_eq]
    simp [e1, e2]
  · rw [calc_confidence_eq]
    simp [e1, e2]

/-- Claim C10 witness: the theorem applied to a concrete singleton
list whose only record has no Risk_Score. -/
theorem claim_C10_witness :
    (calculate_overall_risk 0 [noScoreDoc]).overall_risk_score = 100 ∧
    (calculate_overall_risk 0 [noScoreDoc]).overall_status = "HIGH_RISK" ∧
    (calculate_overall_risk 0 [noScoreDoc]).risk_category = "PROCESSING_ERROR" ∧
    (calculate_overall_risk 0 [noScoreDoc]).confidence_level = "LOW" ∧
    (calculate_overall_risk 0 []).overall_status = "REJECTED" ∧
    (calculate_overall_risk 0 []).risk_category = "NO_DOCUMENTS" :=
  claim_C10_processing_error_verdict 0 [noScoreDoc]
    (List.cons_ne_nil _ _) (by decide)

/-- Claim C5, counterexample: the error record produced by the
`extract_information` exception handler carries Risk_Score 100
and is therefore counted in the aggregation mean, not excluded. In
the concrete batch of one failed document and one clean document with
score 0, the overall score is 50, not the mean 0 over the documents
processed without failure. -/
theorem claim_C5_counterexample :
    (calculate_overall_risk 0
      [extract_information_error "bad.pdf" "boom", mkScoreDoc 0]).overall_risk_score
        = 50 ∧
    (calculate_overall_risk 0
      [extract_information_error "bad.pdf" "boom", mkScoreDoc 0]).overall_risk_score
        ≠ ((indivScores [mkScoreDoc 0]).sum : ℚ) /
            ((indivScores [mkScoreDoc 0]).length : ℚ) := by
  have key : (calculate_overall_risk 0
      [extract_information_error "bad.pdf" "boom", mkScoreDoc 0]).overall_risk_score
        = round2 (round1 (((100 : ℕ) : ℚ) / ((2 : ℕ) : ℚ))) := rfl
  have h50 : ((100 : ℕ) : ℚ) / ((2 : ℕ) : ℚ) = ((50 : ℕ) : ℚ) := by
    push_cast
    norm_num
  have hmean : ((indivScores [mkScoreDoc 0]).sum : ℚ) /
      ((indivScores [mkScoreDoc 0]).length : ℚ) = 0 := by
    have h : indivScores [mkScoreDoc 0] = [0] := rfl
    rw [h]
    norm_num
  rw [key, h50, round1_natCast, round2_natCast, hmean]
  norm_num

/-- Claim C5 as amended: a ProcessingFailure for one document never
aborts the batch; it is captured by `extract_information` as an error
record for that filename, but that record carries Risk_Score 100,
which IS included in the batch aggregation (the collection loop keeps
every dict that has a Risk_Score key); only records without a
Risk_Score key are excluded from the mean. -/
theorem claim_C5_error_record_included (now : ℕ) (docs : List DocRecord)
    (fn msg : String) :
    (extract_information_error fn msg).filename = some fn ∧
    (extract_information_error fn msg).error = some msg ∧
    (extract_information_error fn msg).Risk_Score = some 100 ∧
    (calculate_overall_risk now
        (extract_information_error fn msg :: docs)).individual_document_scores
      = some (100 :: indivScores docs) :=
  ⟨rfl, rfl, rfl, rfl⟩

/-- Claim C6, counterexample: when the spaCy model is unavailable,
`extract_entities` returns early (lines 793-795) with every field
absent, so COUNTRY and COUNTRY_CODE are None rather than the literal
"Unknown" even though no country was found by either path. -/
theorem claim_C6_counterexample :
    (extract_entities ⟨false, none, false, [], none⟩ "hello").COUNTRY = none ∧
    (extract_entities ⟨false, none, false, [], none⟩ "hello").COUNTRY_CODE = none :=
  ⟨rfl, rfl⟩

/-- Claim C6 as amended: when the spaCy model is available and
neither the reference-list path nor the built-in fallback table finds
a country in the text, the EntityRecord returned by
`extract_entities` has COUNTRY and COUNTRY_CODE set to the literal
"Unknown"; with the spaCy model unavailable the record is returned
with all fields absent instead. -/
theorem claim_C6_unknown_country (ctx : ExtractCtx) (text : String)
    (h1 : ctx.nlpAvailable = true)
    (h2 : pyCountryLookup ctx text = none)
    (h3 : findCountryIn builtinCountries text = none) :
    (extract_entities ctx text).COUNTRY = some "Unknown" ∧
    (extract_entities ctx text).COUNTRY_CODE = some "Unknown" := by
  unfold extract_entities
  rw [h1, if_neg (by decide : ¬(true = false))]
  simp [h2, h3]

/-- Claim C6 witness: the theorem applied to a concrete context and a
text in which neither path finds a country. -/
theorem claim_C6_witness :
    (extract_entities ⟨true, none, false, [], none⟩ "zz").COUNTRY = some "Unknown" ∧
    (extract_entities ⟨true, none, false, [], none⟩ "zz").COUNTRY_CODE = some "Unknown" :=
  claim_C6_unknown_country ⟨true, none, false, [], none⟩ "zz" rfl rfl (by decide)

/-- Claim C7, counterexample: the dict built for a successfully
processed file by `extract_information` (lines 871-880) has no Status
key at all, so no DocumentResult of this backend contains a Status
field. -/
theorem claim_C7_counterexample : "Status" ∉ extract_information_keys := by
  decide

/-- Claim C7 as amended: a successfully processed file's
DocumentResult carries the filename, the five entity fields, the
Risk_Score computed by `compute_risk` and the truncated text, but no
Status key (nor Card_Validity or Text_Length); the
score-above-50-is-Flagged status derivation does not occur in this
repository. -/
theorem claim_C7_no_status_field :
    "Risk_Score" ∈ extract_information_keys ∧
    "filename" ∈ extract_information_keys ∧
    "Status" ∉ extract_information_keys ∧
    "Card_Validity" ∉ extract_information_keys ∧
    "Text_Length" ∉ extract_information_keys ∧
    (∀ (now : ℕ) (ctx : ExtractCtx) (text filename : String),
      (extract_information now ctx text filename).Risk_Score =
        some (compute_risk now (extract_entities ctx text)).score) :=
  ⟨by decide, by decide, by decide, by decide, by decide,
   fun _ _ _ _ => rfl⟩

/-- Claim C8, counterexample: for an EntityRecord with exactly one
populated field the completeness fraction is 1/5, but the
completeness_ratio field returned by `assess_document_quality` is the
percentage 20, not a value between 0 and 1. -/
theorem claim_C8_counterexample :
    (assess_document_quality ""
      ⟨some "Bob", none, none, none, none⟩).completeness_ratio = 20 ∧
    (assess_document_quality ""
      ⟨some "Bob", none, none, none, none⟩).completeness_ratio ≠ 1 / 5 := by
  have key : (assess_document_quality ""
      ⟨some "Bob", none, none, none, none⟩).completeness_ratio
        = round1 (((1 : ℕ) : ℚ) / 5 * 100) := rfl
  have h20 : ((1 : ℕ) : ℚ) / 5 * 100 = ((20 : ℕ) : ℚ) := by
    push_cast
    norm_num
  rw [key, h20, round1_natCast]
  norm_num

theorem ratioDed_cases (n : ℕ) :
    (ratioDeduction ((n : ℚ) / 5)).1 =
      if n < 2 then 40 else if n < 3 then 25 else if n < 4 then 10 else 0 := by
  have key : ∀ a : ℕ, ((n : ℚ) / 5 < (a : ℚ) / 5) ↔ n < a := by
    intro a
    constructor
    · intro h
      by_contra hc
      push_neg at hc
      have hc' : (a : ℚ) ≤ (n : ℚ) := by exact_mod_cast hc
      have : (a : ℚ) / 5 ≤ (n : ℚ) / 5 := by linarith
      linarith
    · intro h
      have h' : (n : ℚ) < (a : ℚ) := by exact_mod_cast h
      linarith
  have k2 := key 2
  have k3 := key 3
  have k4 := key 4
  push_cast at k2 k3 k4
  unfold ratioDeduction
  simp only [k2, k3, k4]
  split_ifs <;> rfl

/-- Claim C8 as amended: the completeness_ratio field returned by
`assess_document_quality` is the percentage 20 times the number of
populated non-"Unknown" identity fields (the fraction times 100,
rounded to one decimal), and the quality deduction tied to the
completeness fraction is 40 below 0.4, 25 from 0.4 up to 0.6, 10 from
0.6 up to 0.8, and 0 from 0.8 on. -/
theorem claim_C8_completeness_percentage (text : String) (e : EntityRecord) :
    (assess_document_quality text e).completeness_ratio =
      20 * (filledCount e : ℚ) ∧
    (ratioDeduction ((filledCount e : ℚ) / 5)).1 =
      (if filledCount e < 2 then 40 else if filledCount e < 3 then 25
       else if filledCount e < 4 then 10 else 0) := by
  constructor
  · have key : (assess_document_quality text e).completeness_ratio =
        round1 ((filledCount e : ℚ) / 5 * 100) := rfl
    have h2 : (filledCount e : ℚ) / 5 * 100 = ((20 * filledCount e : ℕ) : ℚ) := by
      push_cast
      ring
    rw [key, h2, round1_natCast]
    push_cast
    ring
  · exact ratioDed_cases (filledCount e)
